import Mathlib

/-
Verification of the LaikaLLM data-to-prompt pipeline.

Shallow embedding of:
  * `AmazonDataset._split_data`            (src/data/amazon_dataset.py)
  * `AmazonDataset.sample_train_sequence`  (src/data/amazon_dataset.py)
  * the metadata-attachment step of `AmazonDataset.__init__`
  * `Task.force_template`, `Task.validate_args`, `SequentialTask.__call__`
                                           (src/data/templates.py)
  * `long_tail_coverage`                   (tests/evaluate/metrics/custom_metrics.py)

Python dataframes are modelled per user: the exploded dataframe grouped by
`user_id` is a list of `(user, rows)` pairs with rows in original insertion
order (pandas `groupby` preserves intra-group row order).  Python `random`
draws are modelled by explicit natural-number draws from the process random
stream, with `random.randint(lo, hi)` mapped to a uniform choice on the
inclusive range `[lo, hi]`.  Fallible Python code (raise) is modelled with
`Except`.
-/

/-- One exploded dataframe row's per-item payload: the item id together with
the parallel metadata columns built in `AmazonDataset.__init__`. -/
structure Record where
  item : String
  description : String
  categories : List String
  title : String
  price : String
  imurl : String
  brand : String
  deriving Repr, DecidableEq

/-- Python list slice `l[a:b]` for `a ≤ b` (indices clamped to the length). -/
def pySlice (l : List α) (a b : Nat) : List α :=
  (l.drop a).take (b - a)

/-- Pandas `groupby.nth[-k]` restricted to one group: the k-th row from the
end when the group has at least `k` rows, nothing otherwise. -/
def nthFromEnd (rs : List Record) (k : Nat) : Option Record :=
  if 1 ≤ k ∧ k ≤ rs.length then rs.get? (rs.length - k) else none

/-- The train-set row `_split_data` produces for one user: the rows selected
by `groupby_obj.nth[:-2]` (python slice `[:-2]`, i.e. all rows but the last
two) are re-grouped by user and aggregated into per-user lists.  A user whose
selection is empty contributes no rows, hence no group and no train row. -/
def trainRowOf (u : String) (rs : List Record) : Option (String × List Record) :=
  let pool := rs.take (rs.length - 2)
  if pool = [] then none else some (u, pool)

/-- The validation-set row `_split_data` produces for one user: the inner
merge (on `user_id`) of the `nth[:-2]` input group with the `nth[-2]`
ground-truth group; the row exists only when both sides have the user. -/
def valRowOf (u : String) (rs : List Record) : Option (String × List Record × Record) :=
  let inp := rs.take (rs.length - 2)
  if inp = [] then none
  else (nthFromEnd rs 2).map (fun g => (u, inp, g))

/-- The test-set row `_split_data` produces for one user: the inner merge of
the `nth[:-1]` input group with the `nth[-1]` ground-truth group. -/
def testRowOf (u : String) (rs : List Record) : Option (String × List Record × Record) :=
  let inp := rs.take (rs.length - 1)
  if inp = [] then none
  else (nthFromEnd rs 1).map (fun g => (u, inp, g))

/-- `AmazonDataset._split_data` on the per-user grouped view of the exploded
dataframe: returns the train, validation and test tables.  Each user group is
processed independently (the pandas pipeline is a per-group selection followed
by re-grouping and an inner merge on `user_id`). -/
def split_data (groups : List (String × List Record)) :
    List (String × List Record) ×
    List (String × List Record × Record) ×
    List (String × List Record × Record) :=
  (groups.filterMap (fun g => trainRowOf g.1 g.2),
   groups.filterMap (fun g => valRowOf g.1 g.2),
   groups.filterMap (fun g => testRowOf g.1 g.2))

/-- A concrete interaction record used for concrete evaluations. -/
def recA : Record := ⟨"A", "", [], "", "", "", ""⟩

/-- A second concrete interaction record. -/
def recB : Record := ⟨"B", "", [], "", "", "", ""⟩

/-- A third concrete interaction record. -/
def recC : Record := ⟨"C", "", [], "", "", "", ""⟩

/-- C1 counterexample: for a user with exactly 2 interaction records the code
produces an empty train table (the `nth[:-2]` selection is empty, so the user
has no group after re-grouping), not a train pool holding the first record as
the claim states. -/
theorem C1_two_record_user_has_no_train_row :
    (split_data [("u1", [recA, recB])]).1 = [] ∧
    ([] : List (String × List Record)) ≠ [("u1", [recA])] := by
  constructor
  · rfl
  · decide

/-- C1 (amended): for every user with more than 2 records the train pool is
all records except the last 2, in original order; a user with exactly 2
records contributes no train row at all (empty pool, not one record). -/
theorem C1_train_pool (u : String) (rs : List Record) :
    (2 < rs.length →
      (split_data [(u, rs)]).1 = [(u, rs.take (rs.length - 2))]) ∧
    (rs.length = 2 → (split_data [(u, rs)]).1 = []) := by
  constructor
  · intro h
    have h1 : ¬ rs.length - 2 = 0 := by omega
    have h2 : rs ≠ [] := by
      intro he
      rw [he] at h
      simp at h
    simp [split_data, trainRowOf, h1, h2]
  · intro h
    simp [split_data, trainRowOf]
    exact fun hc => absurd (by omega) hc

/-- C1 witness: concrete instances of both branches of `C1_train_pool`. -/
theorem C1_train_pool_witness :
    (split_data [("u1", [recA, recB, recC])]).1 = [("u1", [recA])] ∧
    (split_data [("u2", [recA, recB])]).1 = [] := by
  constructor
  · have h := (C1_train_pool "u1" [recA, recB, recC]).1 (by decide)
    simpa using h
  · exact (C1_train_pool "u2" [recA, recB]).2 (by decide)

/-- C3 counterexample: for a user with exactly 2 records the validation table
has no row at all (the `nth[:-2]` input selection is empty, so the inner merge
drops the user), contradicting the claim that every user with N ≥ 2 records
gets a validation example. -/
theorem C3_two_record_user_has_no_val_row :
    (split_data [("u1", [recA, recB])]).2.1 = [] ∧
    ([] : List (String × List Record × Record)) ≠ [("u1", ([] : List Record), recA)] := by
  constructor
  · rfl
  · decide

/-- C3 (amended): for every user with N ≥ 3 records the validation example is
(input: all records except the last 2, target: the record at position -2) and
for every user with N ≥ 2 records the test example is (input: all records
except the last 1, target: the record at position -1), both in original
insertion order; a user with exactly 2 records gets a test example but no
validation example. -/
theorem C3_val_test_rows (u : String) (rs : List Record) :
    (3 ≤ rs.length →
      ∃ g, rs.get? (rs.length - 2) = some g ∧
        (split_data [(u, rs)]).2.1 = [(u, rs.take (rs.length - 2), g)]) ∧
    (2 ≤ rs.length →
      ∃ g, rs.get? (rs.length - 1) = some g ∧
        (split_data [(u, rs)]).2.2 = [(u, rs.take (rs.length - 1), g)]) ∧
    (rs.length = 2 → (split_data [(u, rs)]).2.1 = []) := by
  refine ⟨?_, ?_, ?_⟩
  · intro h
    have hidx : rs.length - 2 < rs.length := by omega
    refine ⟨rs.get ⟨rs.length - 2, hidx⟩, List.get?_eq_get hidx, ?_⟩
    have h3 : 2 ≤ rs.length := by omega
    have h4 : rs.take (rs.length - 2) ≠ [] := by
      intro he
      have h5 : (rs.take (rs.length - 2)).length = min (rs.length - 2) rs.length :=
        List.length_take _ _
      rw [he] at h5
      simp at h5
      omega
    have hv : valRowOf u rs = some (u, rs.take (rs.length - 2), rs.get ⟨rs.length - 2, hidx⟩) := by
      simp [valRowOf, nthFromEnd, h3, h4, List.get?_eq_get hidx]
    simp [split_data, hv]
  · intro h
    have hidx : rs.length - 1 < rs.length := by omega
    refine ⟨rs.get ⟨rs.length - 1, hidx⟩, List.get?_eq_get hidx, ?_⟩
    have h3 : 1 ≤ rs.length := by omega
    have h4 : rs.take (rs.length - 1) ≠ [] := by
      intro he
      have h5 : (rs.take (rs.length - 1)).length = min (rs.length - 1) rs.length :=
        List.length_take _ _
      rw [he] at h5
      simp at h5
      omega
    have ht : testRowOf u rs = some (u, rs.take (rs.length - 1), rs.get ⟨rs.length - 1, hidx⟩) := by
      simp [testRowOf, nthFromEnd, h3, h4, List.get?_eq_get hidx]
    simp [split_data, ht]
  · intro h
    have hemp : rs.take (rs.length - 2) = [] := by
      have h0 : rs.length - 2 = 0 := by omega
      rw [h0]
      simp
    have hv : valRowOf u rs = none := by
      simp [valRowOf, hemp]
    simp [split_data, hv]

/-- C3 witness: concrete instances of all three branches of
`C3_val_test_rows`. -/
theorem C3_val_test_rows_witness :
    (∃ g, [recA, recB, recC].get? ([recA, recB, recC].length - 2) = some g ∧
      (split_data [("u1", [recA, recB, recC])]).2.1 =
        [("u1", [recA, recB, recC].take ([recA, recB, recC].length - 2), g)]) ∧
    (∃ g, [recA, recB, recC].get? ([recA, recB, recC].length - 1) = some g ∧
      (split_data [("u1", [recA, recB, recC])]).2.2 =
        [("u1", [recA, recB, recC].take ([recA, recB, recC].length - 1), g)]) ∧
    (split_data [("u2", [recA, recB])]).2.1 = [] :=
  ⟨(C3_val_test_rows "u1" [recA, recB, recC]).1 (by decide),
   (C3_val_test_rows "u1" [recA, recB, recC]).2.1 (by decide),
   (C3_val_test_rows "u2" [recA, recB]).2.2 (by decide)⟩

/-- C6 counterexample: a user with a single interaction record does not make
`_split_data` fail; the split completes normally and simply returns three
tables with no row for that user (the selections `nth[:-2]`, `nth[:-1]` are
empty and the inner merges drop the user).  The embedding is a total
function: there is no error case in `_split_data` at all. -/
theorem C6_single_record_user_no_error :
    split_data [("u1", [recA])] = ([], [], []) := by
  rfl

/-- C6 (amended): a user with fewer than 2 records is silently excluded from
all three partitions; `_split_data` raises no error for such a user. -/
theorem C6_short_user_excluded (u : String) (rs : List Record)
    (h : rs.length < 2) :
    split_data [(u, rs)] = ([], [], []) := by
  have e1 : rs.take (rs.length - 2) = [] := by
    have h0 : rs.length - 2 = 0 := by omega
    rw [h0]
    simp
  have e2 : rs.take (rs.length - 1) = [] := by
    have h0 : rs.length - 1 = 0 := by omega
    rw [h0]
    simp
  have htr : trainRowOf u rs = none := by simp [trainRowOf, e1]
  have hv : valRowOf u rs = none := by simp [valRowOf, e1]
  have ht : testRowOf u rs = none := by simp [testRowOf, e2]
  simp [split_data, htr, hv, ht]

/-- C6 witness: `C6_short_user_excluded` at a concrete one-record user. -/
theorem C6_short_user_excluded_witness :
    split_data [("u3", [recB])] = ([], [], []) :=
  C6_short_user_excluded "u3" [recB] (by decide)

/-- The per-user training sample handed to `sample_train_sequence`: the user
id and the parallel per-column lists of one train-set row. -/
structure Sample where
  user_id : String
  item_sequence : List String
  description_sequence : List String
  categories_sequence : List (List String)
  title_sequence : List String
  price_sequence : List String
  imurl_sequence : List String
  brand_sequence : List String
  deriving Repr, DecidableEq

/-- The `out_dict` built by `sample_train_sequence`. -/
structure TrainOut where
  user_id : String
  input_item_seq : List String
  input_description_seq : List String
  input_categories_seq : List (List String)
  input_title_seq : List String
  input_price_seq : List String
  input_imurl_seq : List String
  input_brand_seq : List String
  target_item : String
  target_description : String
  target_categories : List String
  target_title : String
  target_price : String
  target_imurl : String
  target_brand : String
  deriving Repr, DecidableEq

/-- `random.randint(lo, hi)` (both endpoints included) driven by one draw `r`
from the process random stream: `r` ranges over the naturals and the result is
uniform on `[lo, hi]` because each residue of `r` modulo the range size is
equally likely. -/
def randint (lo hi r : Nat) : Nat := lo + r % (hi + 1 - lo)

/-- The `out_dict` that `sample_train_sequence` assembles from slice indices
`a = start_index` and `b = end_index`: every `input_*_seq` field is the python
slice `[a:b]` of its column and every `target_*` field is the element of its
column at index `b`. -/
def sampledOut (s : Sample) (a b : Nat) : TrainOut where
  user_id := s.user_id
  input_item_seq := pySlice s.item_sequence a b
  input_description_seq := pySlice s.description_sequence a b
  input_categories_seq := pySlice s.categories_sequence a b
  input_title_seq := pySlice s.title_sequence a b
  input_price_seq := pySlice s.price_sequence a b
  input_imurl_seq := pySlice s.imurl_sequence a b
  input_brand_seq := pySlice s.brand_sequence a b
  target_item := s.item_sequence.getD b ""
  target_description := s.description_sequence.getD b ""
  target_categories := s.categories_sequence.getD b []
  target_title := s.title_sequence.getD b ""
  target_price := s.price_sequence.getD b ""
  target_imurl := s.imurl_sequence.getD b ""
  target_brand := s.brand_sequence.getD b ""

/-- `AmazonDataset.sample_train_sequence`, with the two `random.randint` calls
driven by the stream draws `r1` (sliding size) and `r2` (start index).  A
sequence of fewer than 2 items raises `ValueError`, modelled as the error
case. -/
def sample_train_sequence (r1 r2 : Nat) (sample : Sample) : Except String TrainOut :=
  if sample.item_sequence.length < 2 then
    .error (sample.user_id ++
      " has less than 2 items in its order history, cannot divide in input and target!")
  else
    let minimum_sliding_size : Nat := if sample.item_sequence.length = 2 then 1 else 2
    let sliding_size := randint minimum_sliding_size (sample.item_sequence.length - 1) r1
    let start_index := randint 0 (sample.item_sequence.length - sliding_size - 1) r2
    let end_index := start_index + sliding_size
    .ok (sampledOut sample start_index end_index)

/-- `randint lo hi r` lands in the inclusive range `[lo, hi]`. -/
theorem randint_mem (lo hi r : Nat) (h : lo ≤ hi) :
    lo ≤ randint lo hi r ∧ randint lo hi r ≤ hi := by
  unfold randint
  have hm : r % (hi + 1 - lo) < hi + 1 - lo := Nat.mod_lt _ (by omega)
  omega

/-- Every value of the inclusive range `[lo, hi]` is realized by some draw:
the draw `v - lo` yields exactly `v`. -/
theorem randint_exact (lo hi v : Nat) (h1 : lo ≤ v) (h2 : v ≤ hi) :
    randint lo hi (v - lo) = v := by
  unfold randint
  have hm : (v - lo) % (hi + 1 - lo) = v - lo := Nat.mod_eq_of_lt (by omega)
  omega

/-- C5: on a sequence with fewer than 2 items `sample_train_sequence` raises
(the `ValueError` of the source, the `InsufficientHistoryError` of the spec
taxonomy), and on a sequence of exactly 2 items the outcome is deterministic
regardless of both random draws: the input is the singleton slice `[0:1]`
(the first item alone) and the target is the item at index 1 (the second
item). -/
theorem C5_sampler_short_sequences (r1 r2 : Nat) (s : Sample) :
    (s.item_sequence.length < 2 →
      sample_train_sequence r1 r2 s =
        .error (s.user_id ++
          " has less than 2 items in its order history, cannot divide in input and target!")) ∧
    (s.item_sequence.length = 2 →
      sample_train_sequence r1 r2 s = .ok (sampledOut s 0 1) ∧
      (sampledOut s 0 1).input_item_seq = s.item_sequence.take 1 ∧
      (sampledOut s 0 1).target_item = s.item_sequence.getD 1 "") := by
  constructor
  · intro h
    simp [sample_train_sequence, h]
  · intro h
    have hne : ¬ s.item_sequence.length < 2 := by omega
    refine ⟨?_, ?_, rfl⟩
    · simp [sample_train_sequence, hne, h, randint, Nat.mod_one]
    · simp [sampledOut, pySlice]

/-- C5 witness: a concrete 1-item sample errors and a concrete 2-item sample
is split deterministically. -/
theorem C5_sampler_short_sequences_witness :
    (sample_train_sequence 7 5 ⟨"u1", ["X"], ["d"], [["c"]], ["t"], ["p"], ["i"], ["b"]⟩ =
      .error ("u1 has less than 2 items in its order history, cannot divide in input and target!")) ∧
    (sample_train_sequence 7 5
        ⟨"u2", ["X", "Y"], ["dX", "dY"], [["cX"], ["cY"]], ["tX", "tY"],
         ["pX", "pY"], ["iX", "iY"], ["bX", "bY"]⟩ =
      .ok (sampledOut
        ⟨"u2", ["X", "Y"], ["dX", "dY"], [["cX"], ["cY"]], ["tX", "tY"],
         ["pX", "pY"], ["iX", "iY"], ["bX", "bY"]⟩ 0 1)) :=
  ⟨(C5_sampler_short_sequences 7 5 _).1 (by decide),
   ((C5_sampler_short_sequences 7 5 _).2 (by decide)).1⟩

/-- Window/offset behaviour of the sampler on sequences of length `L ≥ 3`:
the drawn window length lies in `[2, L-1]`, the drawn start offset lies in
`[0, L-w-1]`, the output is built from the slice indices `(start, start+w)`,
and every such pair is realized by some pair of draws. -/
theorem sampler_window_spec (s : Sample) (h : 3 ≤ s.item_sequence.length) :
    (∀ r1 r2, ∃ w a,
        w = randint 2 (s.item_sequence.length - 1) r1 ∧
        a = randint 0 (s.item_sequence.length - w - 1) r2 ∧
        2 ≤ w ∧ w ≤ s.item_sequence.length - 1 ∧
        a ≤ s.item_sequence.length - w - 1 ∧
        a + w < s.item_sequence.length ∧
        sample_train_sequence r1 r2 s = .ok (sampledOut s a (a + w))) ∧
    (∀ w a, 2 ≤ w → w ≤ s.item_sequence.length - 1 →
        a + w < s.item_sequence.length →
        ∃ r1 r2, sample_train_sequence r1 r2 s = .ok (sampledOut s a (a + w))) := by
  have hne : ¬ s.item_sequence.length < 2 := by omega
  have hfalse : ¬ s.item_sequence.length = 2 := by omega
  constructor
  · intro r1 r2
    refine ⟨randint 2 (s.item_sequence.length - 1) r1,
            randint 0 (s.item_sequence.length - randint 2 (s.item_sequence.length - 1) r1 - 1) r2,
            rfl, rfl, ?_, ?_, ?_, ?_, ?_⟩
    · exact (randint_mem 2 (s.item_sequence.length - 1) r1 (by omega)).1
    · exact (randint_mem 2 (s.item_sequence.length - 1) r1 (by omega)).2
    · exact (randint_mem 0 _ r2 (by omega)).2
    · have hw := randint_mem 2 (s.item_sequence.length - 1) r1 (by omega)
      have ha := randint_mem 0
        (s.item_sequence.length - randint 2 (s.item_sequence.length - 1) r1 - 1) r2 (by omega)
      omega
    · simp only [sample_train_sequence, if_neg hne, if_neg hfalse]
  · intro w a hw1 hw2 haw
    refine ⟨w - 2, a, ?_⟩
    have hr1 : randint 2 (s.item_sequence.length - 1) (w - 2) = w :=
      randint_exact 2 (s.item_sequence.length - 1) w hw1 hw2
    have hr2 : randint 0 (s.item_sequence.length - w - 1) a = a :=
      randint_exact 0 (s.item_sequence.length - w - 1) a (by omega) (by omega)
    simp only [sample_train_sequence, if_neg hne, if_neg hfalse, hr1, hr2]

/-- C2: on a train-pool sequence of length `L ≥ 3` the sampler draws the
window length `w` by `randint 2 (L-1)` and the start offset by
`randint 0 (L-w-1)`; the drawn values satisfy `2 ≤ w ≤ L-1` and
`start + w < L`; the result is the slice `[start, start+w)` of every column
with the target taken at index `start + w`; and conversely every pair
`(w, start)` in those ranges is realized by some pair of draws, so the
supports of the two uniform draws are exactly `[2, L-1]` and `[0, L-w-1]`. -/
theorem C2_sampler_window (s : Sample) (h : 3 ≤ s.item_sequence.length) :
    (∀ r1 r2, ∃ w a,
        w = randint 2 (s.item_sequence.length - 1) r1 ∧
        a = randint 0 (s.item_sequence.length - w - 1) r2 ∧
        2 ≤ w ∧ w ≤ s.item_sequence.length - 1 ∧
        a ≤ s.item_sequence.length - w - 1 ∧
        a + w < s.item_sequence.length ∧
        sample_train_sequence r1 r2 s = .ok (sampledOut s a (a + w))) ∧
    (∀ w a, 2 ≤ w → w ≤ s.item_sequence.length - 1 →
        a + w < s.item_sequence.length →
        ∃ r1 r2, sample_train_sequence r1 r2 s = .ok (sampledOut s a (a + w))) :=
  sampler_window_spec s h

/-- C2 witness: `C2_sampler_window` at a concrete 4-item sample; the support
branch realizes the window `w = 3`, `start = 0`. -/
theorem C2_sampler_window_witness :
    ∃ r1 r2, sample_train_sequence r1 r2
        ⟨"u1", ["X", "Y", "Z", "W"], ["d1", "d2", "d3", "d4"],
         [["c1"], ["c2"], ["c3"], ["c4"]], ["t1", "t2", "t3", "t4"],
         ["p1", "p2", "p3", "p4"], ["i1", "i2", "i3", "i4"],
         ["b1", "b2", "b3", "b4"]⟩ =
      .ok (sampledOut
        ⟨"u1", ["X", "Y", "Z", "W"], ["d1", "d2", "d3", "d4"],
         [["c1"], ["c2"], ["c3"], ["c4"]], ["t1", "t2", "t3", "t4"],
         ["p1", "p2", "p3", "p4"], ["i1", "i2", "i3", "i4"],
         ["b1", "b2", "b3", "b4"]⟩ 0 (0 + 3)) :=
  (C2_sampler_window _ (by decide)).2 3 0 (by decide) (by decide) (by decide)

/-- The length of a python slice `l[a:b]`. -/
theorem pySlice_length (l : List α) (a b : Nat) :
    (pySlice l a b).length = min (b - a) (l.length - a) := by
  simp [pySlice, List.length_take, List.length_drop]

/-- On any sequence of length at least 2 the sampler succeeds and its output
is `sampledOut` at in-range slice indices. -/
theorem sample_train_sequence_ok (r1 r2 : Nat) (s : Sample)
    (h : 2 ≤ s.item_sequence.length) :
    ∃ a b, a ≤ b ∧ b < s.item_sequence.length ∧
      sample_train_sequence r1 r2 s = .ok (sampledOut s a b) := by
  have hne : ¬ s.item_sequence.length < 2 := by omega
  by_cases h2 : s.item_sequence.length = 2
  · refine ⟨0, 1, by omega, by omega, ?_⟩
    simp [sample_train_sequence, hne, h2, randint, Nat.mod_one]
  · have h3 : 3 ≤ s.item_sequence.length := by omega
    obtain ⟨w, a, _, _, hw1, hw2, _, haw, hok⟩ :=
      (sampler_window_spec s h3).1 r1 r2
    exact ⟨a, a + w, by omega, haw, hok⟩

/-- C4: the sampler slices all six parallel metadata columns with exactly the
same `start_index`/`end_index` pair as the item-id column (so when the columns
are parallel — same length as the item column — every `input_*_seq` has the
same length as `input_item_seq`), and every `target_*` field is read at the
same single index `end_index`. -/
theorem C4_field_alignment (r1 r2 : Nat) (s : Sample)
    (hlen : 2 ≤ s.item_sequence.length)
    (hd : s.description_sequence.length = s.item_sequence.length)
    (hc : s.categories_sequence.length = s.item_sequence.length)
    (ht : s.title_sequence.length = s.item_sequence.length)
    (hp : s.price_sequence.length = s.item_sequence.length)
    (hm : s.imurl_sequence.length = s.item_sequence.length)
    (hb : s.brand_sequence.length = s.item_sequence.length) :
    ∃ a b, b < s.item_sequence.length ∧
      sample_train_sequence r1 r2 s = .ok (sampledOut s a b) ∧
      (sampledOut s a b).input_item_seq = pySlice s.item_sequence a b ∧
      (sampledOut s a b).input_description_seq = pySlice s.description_sequence a b ∧
      (sampledOut s a b).input_categories_seq = pySlice s.categories_sequence a b ∧
      (sampledOut s a b).input_title_seq = pySlice s.title_sequence a b ∧
      (sampledOut s a b).input_price_seq = pySlice s.price_sequence a b ∧
      (sampledOut s a b).input_imurl_seq = pySlice s.imurl_sequence a b ∧
      (sampledOut s a b).input_brand_seq = pySlice s.brand_sequence a b ∧
      (sampledOut s a b).input_description_seq.length = (sampledOut s a b).input_item_seq.length ∧
      (sampledOut s a b).input_categories_seq.length = (sampledOut s a b).input_item_seq.length ∧
      (sampledOut s a b).input_title_seq.length = (sampledOut s a b).input_item_seq.length ∧
      (sampledOut s a b).input_price_seq.length = (sampledOut s a b).input_item_seq.length ∧
      (sampledOut s a b).input_imurl_seq.length = (sampledOut s a b).input_item_seq.length ∧
      (sampledOut s a b).input_brand_seq.length = (sampledOut s a b).input_item_seq.length ∧
      (sampledOut s a b).target_item = s.item_sequence.getD b "" ∧
      (sampledOut s a b).target_description = s.description_sequence.getD b "" ∧
      (sampledOut s a b).target_categories = s.categories_sequence.getD b [] ∧
      (sampledOut s a b).target_title = s.title_sequence.getD b "" ∧
      (sampledOut s a b).target_price = s.price_sequence.getD b "" ∧
      (sampledOut s a b).target_imurl = s.imurl_sequence.getD b "" ∧
      (sampledOut s a b).target_brand = s.brand_sequence.getD b "" := by
  obtain ⟨a, b, hab, hbL, hok⟩ := sample_train_sequence_ok r1 r2 s hlen
  refine ⟨a, b, hbL, hok, rfl, rfl, rfl, rfl, rfl, rfl, rfl,
          ?_, ?_, ?_, ?_, ?_, ?_, rfl, rfl, rfl, rfl, rfl, rfl, rfl⟩
  · show (pySlice s.description_sequence a b).length = (pySlice s.item_sequence a b).length
    rw [pySlice_length, pySlice_length, hd]
  · show (pySlice s.categories_sequence a b).length = (pySlice s.item_sequence a b).length
    rw [pySlice_length, pySlice_length, hc]
  · show (pySlice s.title_sequence a b).length = (pySlice s.item_sequence a b).length
    rw [pySlice_length, pySlice_length, ht]
  · show (pySlice s.price_sequence a b).length = (pySlice s.item_sequence a b).length
    rw [pySlice_length, pySlice_length, hp]
  · show (pySlice s.imurl_sequence a b).length = (pySlice s.item_sequence a b).length
    rw [pySlice_length, pySlice_length, hm]
  · show (pySlice s.brand_sequence a b).length = (pySlice s.item_sequence a b).length
    rw [pySlice_length, pySlice_length, hb]

/-- C4 witness: `C4_field_alignment` at a concrete 3-item sample with
parallel columns. -/
theorem C4_field_alignment_witness :
    ∃ a b, b < (["X", "Y", "Z"] : List String).length ∧
      sample_train_sequence 4 9
        ⟨"u1", ["X", "Y", "Z"], ["d1", "d2", "d3"], [["c1"], ["c2"], ["c3"]],
         ["t1", "t2", "t3"], ["p1", "p2", "p3"], ["i1", "i2", "i3"],
         ["b1", "b2", "b3"]⟩ =
        .ok (sampledOut
          ⟨"u1", ["X", "Y", "Z"], ["d1", "d2", "d3"], [["c1"], ["c2"], ["c3"]],
           ["t1", "t2", "t3"], ["p1", "p2", "p3"], ["i1", "i2", "i3"],
           ["b1", "b2", "b3"]⟩ a b) ∧
      (sampledOut
          ⟨"u1", ["X", "Y", "Z"], ["d1", "d2", "d3"], [["c1"], ["c2"], ["c3"]],
           ["t1", "t2", "t3"], ["p1", "p2", "p3"], ["i1", "i2", "i3"],
           ["b1", "b2", "b3"]⟩ a b).input_description_seq.length =
        (sampledOut
          ⟨"u1", ["X", "Y", "Z"], ["d1", "d2", "d3"], [["c1"], ["c2"], ["c3"]],
           ["t1", "t2", "t3"], ["p1", "p2", "p3"], ["i1", "i2", "i3"],
           ["b1", "b2", "b3"]⟩ a b).input_item_seq.length := by
  obtain ⟨a, b, h1, h2, _, _, _, _, _, _, _, h3, _⟩ :=
    C4_field_alignment 4 9
      ⟨"u1", ["X", "Y", "Z"], ["d1", "d2", "d3"], [["c1"], ["c2"], ["c3"]],
       ["t1", "t2", "t3"], ["p1", "p2", "p3"], ["i1", "i2", "i3"],
       ["b1", "b2", "b3"]⟩
      (by decide) (by decide) (by decide) (by decide) (by decide) (by decide) (by decide)
  exact ⟨a, b, h1, h2, h3⟩

/-- One raw metadata record as stored in `meta_dict`: each field of the
`meta.json.gz` item entry may be present or absent (python `dict.get`). -/
structure MetaContent where
  description : Option String
  categories : Option (List (List String))
  title : Option String
  price : Option String
  imUrl : Option String
  brand : Option String
  deriving Repr, DecidableEq

/-- The per-item metadata-attachment step of `AmazonDataset.__init__`:
`meta_dict[item_idx]` followed by `.get(field, default)` for each field and
`get("categories", [[]])[0]` for the category group.  A key absent from
`meta_dict` raises `KeyError`; an explicitly empty stored category list makes
the python `[0]` indexing raise `IndexError`.  Both raises are modelled as
the error case. -/
def buildRecord (meta_dict : List (String × MetaContent)) (item_idx : String) :
    Except String Record :=
  match meta_dict.lookup item_idx with
  | none => .error ("KeyError: " ++ item_idx)
  | some m =>
    match (m.categories.getD [[]]).head? with
    | none => .error "IndexError: list index out of range"
    | some item_categories =>
      .ok { item := item_idx
            description := m.description.getD ""
            categories := item_categories
            title := m.title.getD ""
            price := m.price.getD ""
            imurl := m.imUrl.getD ""
            brand := m.brand.getD "" }

/-- The metadata-attachment loop over one user's item list: the first raising
item aborts the whole construction (python propagates the exception). -/
def buildUserRecords (meta_dict : List (String × MetaContent))
    (item_list : List String) : Except String (List Record) :=
  item_list.mapM (buildRecord meta_dict)

/-- C7 counterexample: an item key referenced in a user's interaction log but
absent from the metadata source crashes dataset construction with `KeyError`
instead of defaulting the metadata fields; the rest of the batch is not
processed. -/
theorem C7_missing_item_key_raises :
    buildUserRecords [] ["i1", "i2"] = .error ("KeyError: " ++ "i1") ∧
    (∀ rs : List Record, Except.error ("KeyError: " ++ "i1") ≠ Except.ok rs) := by
  constructor
  · rfl
  · intro rs h
    exact Except.noConfusion h

/-- C7 (amended): the empty-value defaulting applies only to individual
missing fields of items that are present in the metadata source — an item
present with no fields at all yields a record of empty placeholders — while
an item key entirely absent from `meta_dict` raises `KeyError` and aborts
construction. -/
theorem C7_meta_field_defaults (meta_dict : List (String × MetaContent))
    (item_idx : String) :
    (meta_dict.lookup item_idx = none →
      buildRecord meta_dict item_idx = .error ("KeyError: " ++ item_idx)) ∧
    (meta_dict.lookup item_idx = some ⟨none, none, none, none, none, none⟩ →
      buildRecord meta_dict item_idx = .ok ⟨item_idx, "", [], "", "", "", ""⟩) ∧
    (∀ m, meta_dict.lookup item_idx = some m → m.categories = none →
      buildRecord meta_dict item_idx =
        .ok ⟨item_idx, m.description.getD "", [], m.title.getD "",
             m.price.getD "", m.imUrl.getD "", m.brand.getD ""⟩) := by
  refine ⟨?_, ?_, ?_⟩
  · intro h
    simp [buildRecord, h]
  · intro h
    simp [buildRecord, h, Option.getD]
  · intro m h hcat
    simp [buildRecord, h, hcat, Option.getD]

/-- C7 witness: `C7_meta_field_defaults` at a concrete lookup miss, a
concrete fieldless item and a concrete item with only a title. -/
theorem C7_meta_field_defaults_witness :
    (buildRecord [("i2", ⟨none, none, none, none, none, none⟩)] "i1" =
      .error ("KeyError: " ++ "i1")) ∧
    (buildRecord [("i2", ⟨none, none, none, none, none, none⟩)] "i2" =
      .ok ⟨"i2", "", [], "", "", "", ""⟩) ∧
    (buildRecord [("i3", ⟨none, none, some "Nice toy", none, none, none⟩)] "i3" =
      .ok ⟨"i3", (none : Option String).getD "", [],
           (some "Nice toy").getD "", (none : Option String).getD "",
           (none : Option String).getD "", (none : Option String).getD ""⟩) :=
  ⟨(C7_meta_field_defaults [("i2", ⟨none, none, none, none, none, none⟩)] "i1").1 (by decide),
   (C7_meta_field_defaults [("i2", ⟨none, none, none, none, none, none⟩)] "i2").2.1 (by decide),
   (C7_meta_field_defaults [("i3", ⟨none, none, some "Nice toy", none, none, none⟩)] "i3").2.2
     ⟨none, none, some "Nice toy", none, none, none⟩ (by decide) rfl⟩

/-- A `(input_prompt, target_text)` template pair (`PromptTarget` in
templates.py).  `\x7b\x7d` is the literal `{}` placeholder of the python
template strings. -/
structure PromptTarget where
  input_prompt : String
  target_text : String
  deriving Repr, DecidableEq

/-- The class-level `SequentialTask.templates_dict`: the canonical template
set shared by every instance, keyed by integer template ids 0..5. -/
def sequentialTemplatesDict : List (Nat × PromptTarget) :=
  [(0, ⟨"sequential_rec for \x7b\x7d: \n\nPredict for the user the next element of the following sequence -> \n\x7b\x7d",
        "\x7b\x7d"⟩),
   (1, ⟨"sequential_rec for \x7b\x7d: \n\nPredict the next element which the user will buy given the following order history -> \n\x7b\x7d",
        "\x7b\x7d"⟩),
   (2, ⟨"sequential_rec for \x7b\x7d: \n\nWhat is the element that should be recommended to the user knowing that it has bought -> \n\x7b\x7d",
        "\x7b\x7d"⟩),
   (3, ⟨"sequential_rec for \x7b\x7d: \n\nRecommend to the user an item from the catalog given its order history -> \n\x7b\x7d",
        "\x7b\x7d"⟩),
   (4, ⟨"sequential_rec for \x7b\x7d: \n\nThis is the order history of the user -> \n\x7b\x7d \nRecommend the next element that the user will buy",
        "\x7b\x7d"⟩),
   (5, ⟨"sequential_rec for \x7b\x7d: \n\nPlease predict what item is best to recommend to the user given its order history -> \n\x7b\x7d",
        "\x7b\x7d"⟩)]

/-- The mutable per-instance state of a `SequentialTask`: the python instance
attribute `templates_dict`, which initially resolves to the class-level
dict. -/
structure TaskState where
  templates_dict : List (Nat × PromptTarget)
  deriving Repr, DecidableEq

/-- A freshly instantiated `SequentialTask()`: its `templates_dict` attribute
resolves to the class-level dict. -/
def newSequentialTask : TaskState := ⟨sequentialTemplatesDict⟩

/-- `Task.force_template` for a `SequentialTask` instance: membership is
checked against the class-level dict (`self.__class__.templates_dict`) and the
replacement singleton is built from the class-level dict, but the `KeyError`
message enumerates the ids `list(self.templates_dict.keys())` of the
instance-level dict.  The error case carries that enumerated id list. -/
def force_template (t : TaskState) (force_template_id : Nat) :
    Except (List Nat) TaskState :=
  if (sequentialTemplatesDict.map Prod.fst).contains force_template_id then
    .ok ⟨sequentialTemplatesDict.filter (fun kv => kv.1 == force_template_id)⟩
  else
    .error (t.templates_dict.map Prod.fst)

/-- `str.format` argument interleaving: the pieces of the template split at
the `\x7b\x7d` placeholders are rejoined with the arguments consumed left to
right. -/
def formatJoin : List String → List String → String
  | [], _ => ""
  | [p], _ => p
  | p :: ps, [] => p ++ formatJoin ps []
  | p :: ps, a :: as => p ++ a ++ formatJoin ps as

/-- Python `template.format(*args)` for templates using positional `\x7b\x7d`
placeholders only. -/
def pyFormat (template : String) (args : List String) : String :=
  formatJoin (template.splitOn "\x7b\x7d") args

/-- `random.choice` over a list, driven by one draw from the random stream;
the source only ever applies it to the non-empty `all_templates` list. -/
def pyChoice (l : List PromptTarget) (r : Nat) : PromptTarget :=
  l.getD (r % l.length) ⟨"", ""⟩

/-- The keyword arguments of a `SequentialTask.__call__` render: each of the
three fields the task declares mandatory may be present or absent. -/
structure Kwargs where
  user_id : Option String
  input_item_seq : Option (List String)
  target_item : Option String
  deriving Repr, DecidableEq

/-- The separator drawn by `random.getrandbits(1)`: `" , "` on a set bit and
`" ; "` otherwise. -/
def drawSeparator (rSep : Nat) : String :=
  if rSep % 2 = 1 then " , " else " ; "

/-- `SequentialTask.__call__` wrapped by
`Task.validate_args("user_id", "input_item_seq", "target_item")`: the
decorator asserts the mandatory arguments in declaration order before the
body runs; the body then draws a template from the instance template list and
a separator, joins the order history, and renders both template halves. -/
def sequentialCall (t : TaskState) (rT rSep : Nat) (kwargs : Kwargs) :
    Except String (String × String) :=
  match kwargs.user_id with
  | none => .error ("user_id is needed for task SequentialTask!")
  | some user_id =>
    match kwargs.input_item_seq with
    | none => .error ("input_item_seq is needed for task SequentialTask!")
    | some order_history =>
      match kwargs.target_item with
      | none => .error ("target_item is needed for task SequentialTask!")
      | some target_item =>
        let tmpl := pyChoice (t.templates_dict.map Prod.snd) rT
        let separator := drawSeparator rSep
        let order_history_str := String.intercalate separator order_history
        .ok (pyFormat tmpl.input_prompt [user_id, order_history_str],
             pyFormat tmpl.target_text [target_item])

/-- C8: rendering a `SequentialTask` (the only task variant in the source)
with a keyword-argument set missing one of its declared mandatory fields
(`user_id`, `input_item_seq`, `target_item`) fails with an error that names
the first missing field in declaration order and the task, and does so before
any template is rendered: the error does not depend on the template or
separator draws. -/
theorem C8_missing_mandatory_arg (t : TaskState) (k : Kwargs)
    (h : k.user_id = none ∨ k.input_item_seq = none ∨ k.target_item = none) :
    ∃ f msg,
      ((f = "user_id" ∧ k.user_id = none) ∨
       (f = "input_item_seq" ∧ k.user_id ≠ none ∧ k.input_item_seq = none) ∨
       (f = "target_item" ∧ k.user_id ≠ none ∧ k.input_item_seq ≠ none ∧
         k.target_item = none)) ∧
      msg = f ++ " is needed for task SequentialTask!" ∧
      ∀ rT rSep, sequentialCall t rT rSep k = .error msg := by
  rcases k with ⟨u, i, g⟩
  cases u with
  | none =>
    exact ⟨"user_id", _, Or.inl ⟨rfl, rfl⟩, rfl, fun _ _ => rfl⟩
  | some u0 =>
    cases i with
    | none =>
      exact ⟨"input_item_seq", _, Or.inr (Or.inl ⟨rfl, by simp, rfl⟩), rfl, fun _ _ => rfl⟩
    | some i0 =>
      cases g with
      | none =>
        exact ⟨"target_item", _, Or.inr (Or.inr ⟨rfl, by simp, by simp, rfl⟩), rfl,
               fun _ _ => rfl⟩
      | some g0 => simp at h

/-- C8 witness: `C8_missing_mandatory_arg` at a fresh task and a concrete
keyword set missing only `input_item_seq`. -/
theorem C8_missing_mandatory_arg_witness :
    ∃ f msg,
      ((f = "user_id" ∧ (Kwargs.mk (some "u1") none (some "i9")).user_id = none) ∨
       (f = "input_item_seq" ∧ (Kwargs.mk (some "u1") none (some "i9")).user_id ≠ none ∧
         (Kwargs.mk (some "u1") none (some "i9")).input_item_seq = none) ∨
       (f = "target_item" ∧ (Kwargs.mk (some "u1") none (some "i9")).user_id ≠ none ∧
         (Kwargs.mk (some "u1") none (some "i9")).input_item_seq ≠ none ∧
         (Kwargs.mk (some "u1") none (some "i9")).target_item = none)) ∧
      msg = f ++ " is needed for task SequentialTask!" ∧
      ∀ rT rSep,
        sequentialCall newSequentialTask rT rSep (Kwargs.mk (some "u1") none (some "i9")) =
          .error msg :=
  C8_missing_mandatory_arg newSequentialTask (Kwargs.mk (some "u1") none (some "i9"))
    (Or.inr (Or.inl rfl))

/-- In an association list with pairwise distinct keys, filtering on one
present key yields exactly the singleton of that key and its looked-up
value. -/
theorem lookup_filter_key {β : Type} (l : List (Nat × β)) (k : Nat)
    (hnd : (l.map Prod.fst).Nodup) (hk : k ∈ l.map Prod.fst) :
    ∃ v, l.lookup k = some v ∧ l.filter (fun kv => kv.1 == k) = [(k, v)] := by
  induction l with
  | nil => simp at hk
  | cons x xs ih =>
    rcases x with ⟨a, b⟩
    simp only [List.map_cons, List.nodup_cons] at hnd
    rcases hnd with ⟨hna, hnd⟩
    by_cases hak : a = k
    · subst hak
      refine ⟨b, by simp [List.lookup], ?_⟩
      have hfe : xs.filter (fun kv => kv.1 == a) = [] := by
        rw [List.filter_eq_nil_iff]
        intro kv hkv
        simp only [beq_iff_eq]
        intro he
        exact hna (he ▸ List.mem_map_of_mem Prod.fst hkv)
      simp [List.filter_cons, hfe]
    · have hk2 : k ∈ xs.map Prod.fst := by
        rcases List.mem_cons.mp hk with h1 | h1
        · exact absurd h1.symm hak
        · exact h1
      obtain ⟨v, hl, hf⟩ := ih hnd hk2
      refine ⟨v, ?_, ?_⟩
      · have : (k == a) = false := by simp [Ne.symm hak]
        simp [List.lookup, this, hl]
      · have : (a == k) = false := by simp [hak]
        simp [List.filter_cons, this, hf]

/-- C9 counterexample: after pinning a fresh task to template id 0, forcing
the invalid id 99 raises a `KeyError` whose "available prompt ids" list is
`[0]` — only the pinned id — and not the canonical id set `[0, 1, 2, 3, 4, 5]`
that the check itself accepts, refuting the claim that the error enumerates
the valid ids. -/
theorem C9_repinned_error_lists_only_pinned_id :
    (force_template newSequentialTask 0).bind (fun t1 => force_template t1 99) =
      .error [0] ∧
    sequentialTemplatesDict.map Prod.fst = [0, 1, 2, 3, 4, 5] ∧
    ([0] : List Nat) ≠ [0, 1, 2, 3, 4, 5] := by
  refine ⟨rfl, rfl, by decide⟩

/-- C9 (amended): after `force_template k` with `k` in the canonical template
set, every subsequent render of the pinned instance uses template k's pattern
regardless of both random draws; the class-level canonical set is never
mutated, so repeated pinning (to any canonical id j) still resolves against
the full original pool; pinning an id outside the canonical set fails with an
error enumerating the keys of the instance's currently active template set —
`[k]` after the pin (the full canonical set only on a never-pinned
instance) — rather than the canonical ids. -/
theorem C9_forced_template_pinning (t : TaskState) (k : Nat)
    (hk : k ∈ sequentialTemplatesDict.map Prod.fst) :
    ∃ tk v, force_template t k = .ok tk ∧
      sequentialTemplatesDict.lookup k = some v ∧
      tk.templates_dict = [(k, v)] ∧
      (∀ rT rSep u oh ti,
        sequentialCall tk rT rSep (Kwargs.mk (some u) (some oh) (some ti)) =
          .ok (pyFormat v.input_prompt [u, String.intercalate (drawSeparator rSep) oh],
               pyFormat v.target_text [ti])) ∧
      (∀ j, j ∈ sequentialTemplatesDict.map Prod.fst →
        ∃ tj vj, force_template tk j = .ok tj ∧
          sequentialTemplatesDict.lookup j = some vj ∧
          tj.templates_dict = [(j, vj)]) ∧
      (∀ j, j ∉ sequentialTemplatesDict.map Prod.fst →
        force_template tk j = .error [k]) := by
  have hnd : (sequentialTemplatesDict.map Prod.fst).Nodup := by decide
  obtain ⟨v, hl, hf⟩ := lookup_filter_key sequentialTemplatesDict k hnd hk
  have hc : (sequentialTemplatesDict.map Prod.fst).contains k = true := by
    exact List.elem_iff.mpr hk
  have hok : force_template t k = .ok ⟨[(k, v)]⟩ := by
    unfold force_template
    rw [if_pos hc, hf]
  refine ⟨⟨[(k, v)]⟩, v, hok, hl, rfl, ?_, ?_, ?_⟩
  · intro rT rSep u oh ti
    simp [sequentialCall, pyChoice, Nat.mod_one]
  · intro j hj
    obtain ⟨vj, hlj, hfj⟩ := lookup_filter_key sequentialTemplatesDict j hnd hj
    have hcj : (sequentialTemplatesDict.map Prod.fst).contains j = true :=
      List.elem_iff.mpr hj
    refine ⟨⟨[(j, vj)]⟩, vj, ?_, hlj, rfl⟩
    unfold force_template
    rw [if_pos hcj, hfj]
  · intro j hj
    have hcj : ¬ (sequentialTemplatesDict.map Prod.fst).contains j = true := by
      intro hcc
      exact hj (List.elem_iff.mp hcc)
    unfold force_template
    rw [if_neg hcj]
    rfl

/-- C9 witness: `C9_forced_template_pinning` at a fresh task pinned to the
canonical id 3. -/
theorem C9_forced_template_pinning_witness :
    ∃ tk v, force_template newSequentialTask 3 = .ok tk ∧
      sequentialTemplatesDict.lookup 3 = some v ∧
      tk.templates_dict = [(3, v)] ∧
      (∀ rT rSep u oh ti,
        sequentialCall tk rT rSep (Kwargs.mk (some u) (some oh) (some ti)) =
          .ok (pyFormat v.input_prompt [u, String.intercalate (drawSeparator rSep) oh],
               pyFormat v.target_text [ti])) ∧
      (∀ j, j ∈ sequentialTemplatesDict.map Prod.fst →
        ∃ tj vj, force_template tk j = .ok tj ∧
          sequentialTemplatesDict.lookup j = some vj ∧
          tj.templates_dict = [(j, vj)]) ∧
      (∀ j, j ∉ sequentialTemplatesDict.map Prod.fst →
        force_template tk j = .error [3]) :=
  C9_forced_template_pinning newSequentialTask 3 (by decide)

/-- Insert a value into an ascending-sorted list of rationals. -/
def insertSorted (x : ℚ) : List ℚ → List ℚ
  | [] => [x]
  | y :: ys => if x ≤ y then x :: y :: ys else y :: insertSorted x ys

/-- Ascending insertion sort over rationals (the internal sort of
`np.percentile`). -/
def sortQ : List ℚ → List ℚ
  | [] => []
  | x :: xs => insertSorted x (sortQ xs)

/-- `np.percentile(a, q)` with the default linear interpolation, computed
over exact rationals: for the ascending sort `v` of `a` of length `n`, the
rank is `h = (n-1) * q / 100` and the result interpolates linearly between
`v[floor h]` and `v[ceil h]`. -/
def npPercentile (a : List ℚ) (q : ℚ) : ℚ :=
  let v := sortQ a
  let n := v.length
  let h : ℚ := ((n : ℚ) - 1) * q / 100
  v.getD (⌊h⌋).toNat 0 + (h - (⌊h⌋ : ℚ)) * (v.getD (⌈h⌉).toNat 0 - v.getD (⌊h⌋).toNat 0)

/-- The long-tail item set of `long_tail_coverage`: the items of
`all_interactions` (a dict, so keys are distinct) whose interaction count is
at or below the percentile cutoff. -/
def longTailItems (all_interactions : List (String × ℚ)) (percentile : ℚ) :
    Finset String :=
  ((all_interactions.filter
      (fun it => decide (it.2 ≤ npPercentile (all_interactions.map Prod.snd) percentile))).map
    Prod.fst).toFinset

/-- The set of recommended items that belong to the long-tail set: the python
loop `recommended_long_tail.update(set(rec_list) & long_tail_items)` starting
from the empty set. -/
def recommendedLongTail (recommended_items : List (List String))
    (lt : Finset String) : Finset String :=
  recommended_items.foldl (fun s rec_list => s ∪ (rec_list.toFinset ∩ lt)) ∅

/-- `long_tail_coverage` of tests/evaluate/metrics/custom_metrics.py: the
fraction of long-tail items covered by the recommendations, or `0.0` when the
long-tail set is empty (the python conditional expression guarding the
division). -/
def long_tail_coverage (recommended_items : List (List String))
    (all_interactions : List (String × ℚ)) (percentile : ℚ) : ℚ :=
  if longTailItems all_interactions percentile = ∅ then 0
  else
    ((recommendedLongTail recommended_items
        (longTailItems all_interactions percentile)).card : ℚ) /
      ((longTailItems all_interactions percentile).card : ℚ)

/-- The accumulated recommended-long-tail set never leaves the long-tail
set. -/
theorem recommendedLongTail_subset (ls : List (List String)) (lt : Finset String)
    (s0 : Finset String) (h : s0 ⊆ lt) :
    ls.foldl (fun s rec_list => s ∪ (rec_list.toFinset ∩ lt)) s0 ⊆ lt := by
  induction ls generalizing s0 with
  | nil => simpa using h
  | cons x xs ih =>
    simp only [List.foldl_cons]
    exact ih _ (Finset.union_subset h Finset.inter_subset_right)

/-- C10: for every recommendation list-of-lists and non-empty interaction
dict, `long_tail_coverage` is in `[0, 1]`, and it is exactly `0` whenever the
long-tail set is empty — the guard means the division is only ever taken with
a non-zero denominator. -/
theorem C10_long_tail_coverage_bounds (recommended_items : List (List String))
    (all_interactions : List (String × ℚ)) (p : ℚ)
    (h : all_interactions ≠ []) :
    0 ≤ long_tail_coverage recommended_items all_interactions p ∧
    long_tail_coverage recommended_items all_interactions p ≤ 1 ∧
    (longTailItems all_interactions p = ∅ →
      long_tail_coverage recommended_items all_interactions p = 0) := by
  by_cases he : longTailItems all_interactions p = ∅
  · simp [long_tail_coverage, he]
  · have hsub : recommendedLongTail recommended_items (longTailItems all_interactions p) ⊆
        longTailItems all_interactions p :=
      recommendedLongTail_subset recommended_items _ _ (Finset.empty_subset _)
    have hpos : 0 < ((longTailItems all_interactions p).card : ℚ) := by
      exact_mod_cast Finset.card_pos.mpr (Finset.nonempty_iff_ne_empty.mpr he)
    have hle : ((recommendedLongTail recommended_items
          (longTailItems all_interactions p)).card : ℚ) ≤
        ((longTailItems all_interactions p).card : ℚ) := by
      exact_mod_cast Finset.card_le_card hsub
    unfold long_tail_coverage
    rw [if_neg he]
    refine ⟨div_nonneg (by positivity) (le_of_lt hpos), ?_, fun hc => absurd hc he⟩
    rw [div_le_one hpos]
    exact hle

/-- C10 witness: `C10_long_tail_coverage_bounds` at a concrete two-item
interaction dict. -/
theorem C10_long_tail_coverage_bounds_witness :
    0 ≤ long_tail_coverage [["a"]] [("a", 1), ("b", 5)] 20 ∧
    long_tail_coverage [["a"]] [("a", 1), ("b", 5)] 20 ≤ 1 ∧
    (longTailItems [("a", 1), ("b", 5)] 20 = ∅ →
      long_tail_coverage [["a"]] [("a", 1), ("b", 5)] 20 = 0) :=
  C10_long_tail_coverage_bounds [["a"]] [("a", 1), ("b", 5)] 20 (by simp)
